import Mathlib

/-!
Shallow embedding of GHAFregistryD (src/src/main.rs), a warp HTTP service
backed by Redis. Each handler is modelled as a state-passing function over
the key-value store; `println!` output is not modelled (it never affects
observable state). Redis `set`/`del`/`keys`/`get` are modelled on an
association list with unique keys (set removes the old binding first,
matching Redis overwrite semantics).
-/

/-- Data model of src/src/main.rs lines 20-24: `enum SystemAppType`. -/
inductive SystemAppType
  | System
  | App
deriving DecidableEq

/-- Data model of src/src/main.rs lines 26-30: `enum RunType`. -/
inductive RunType
  | LongRun
  | OneShot
deriving DecidableEq

/-- Data model of src/src/main.rs lines 14-18: `struct VMType`. -/
structure VMType where
  system_app : SystemAppType
  run_type : RunType
deriving DecidableEq

/-- Data model of src/src/main.rs lines 32-36: `struct Addresses`. -/
structure Addresses where
  ip : String
  vsock : String
deriving DecidableEq

/-- Data model of src/src/main.rs lines 5-12: `struct VM`. Note: the source
record has no `state` and no `version` field. -/
structure VM where
  name : String
  vm_type : VMType
  addresses : Addresses
  xdg_run : Option String
  mime_type : Option String
deriving DecidableEq

/-- An HTTP reply as produced by the warp handlers: a body string and a
numeric status code (`warp::reply::with_status` / `warp::reply::json`,
the latter always with status 200). -/
structure Reply where
  body : String
  status : Nat
deriving DecidableEq

/-- The Redis database: an association list from key to stored string. -/
abbrev Store := List (String × String)

/-- Redis `GET key`: the value of the first binding of the key, if any. -/
def storeGet (k : String) (s : Store) : Option String :=
  (s.find? (fun p => p.1 == k)).map Prod.snd

/-- Redis `SET key value`: overwrite, i.e. drop any old binding of the key
and bind it to the new value. -/
def storeSet (k v : String) (s : Store) : Store :=
  (k, v) :: s.filter (fun p => p.1 != k)

/-- Redis `DEL key`: remove all bindings of the key. -/
def storeDel (k : String) (s : Store) : Store :=
  s.filter (fun p => p.1 != k)

/-- Redis `KEYS *`: all keys of the database. -/
def storeKeys (s : Store) : List String :=
  s.map Prod.fst

/-! JSON codec: `serde_json::to_string` / `serde_json::from_str` for `VM`.
serde serializes struct fields in declaration order with no whitespace;
unit enum variants become their name as a JSON string; `Option` becomes
`null` or the value. The decoder below accepts exactly that canonical
form (the claims only exercise round-trips of canonical encodings and
strings that no JSON parser accepts). -/

/-- JSON string escaping on the character list (quote and backslash). -/
def escChars : List Char → List Char
  | [] => []
  | c :: cs =>
    if c = '"' then '\\' :: '"' :: escChars cs
    else if c = '\\' then '\\' :: '\\' :: escChars cs
    else c :: escChars cs

/-- A JSON string literal: quoted, escaped content. -/
def jsonStr (s : String) : String :=
  "\"" ++ String.mk (escChars s.data) ++ "\""

/-- serde encoding of `SystemAppType` (unit variant as string). -/
def encodeSystemApp : SystemAppType → String
  | .System => "\"System\""
  | .App => "\"App\""

/-- serde encoding of `RunType` (unit variant as string). -/
def encodeRunType : RunType → String
  | .LongRun => "\"LongRun\""
  | .OneShot => "\"OneShot\""

/-- serde encoding of `Option<String>`: `null` or a JSON string. -/
def encodeOptStr : Option String → String
  | none => "null"
  | some s => jsonStr s

/-- serde_json::to_string of a `VM` record. -/
def encodeVM (vm : VM) : String :=
  "\x7b\"name\":" ++ jsonStr vm.name
    ++ ",\"vm_type\":\x7b\"system_app\":" ++ encodeSystemApp vm.vm_type.system_app
    ++ ",\"run_type\":" ++ encodeRunType vm.vm_type.run_type
    ++ "\x7d,\"addresses\":\x7b\"ip\":" ++ jsonStr vm.addresses.ip
    ++ ",\"vsock\":" ++ jsonStr vm.addresses.vsock
    ++ "\x7d,\"xdg_run\":" ++ encodeOptStr vm.xdg_run
    ++ ",\"mime_type\":" ++ encodeOptStr vm.mime_type
    ++ "\x7d"

/-- Consume an expected literal prefix, returning the rest of the input. -/
def expectLit : List Char → List Char → Option (List Char)
  | [], s => some s
  | _ :: _, [] => none
  | c :: lit, d :: s => if c = d then expectLit lit s else none

/-- Consume the body of a JSON string up to the closing quote, undoing the
escaping of `escChars`. -/
def strBody : List Char → Option (List Char × List Char)
  | [] => none
  | '"' :: rest => some ([], rest)
  | '\\' :: c :: rest =>
    if c = '"' ∨ c = '\\' then
      (strBody rest).map (fun p => (c :: p.1, p.2))
    else none
  | '\\' :: [] => none
  | c :: rest => (strBody rest).map (fun p => (c :: p.1, p.2))

/-- Consume a JSON string literal. -/
def readJsonStr (s : List Char) : Option (String × List Char) :=
  match s with
  | '"' :: rest => (strBody rest).map (fun p => (String.mk p.1, p.2))
  | _ => none

/-- Decode a `SystemAppType` variant name. -/
def decodeSystemApp (s : String) : Option SystemAppType :=
  if s = "System" then some .System
  else if s = "App" then some .App
  else none

/-- Decode a `RunType` variant name. -/
def decodeRunType (s : String) : Option RunType :=
  if s = "LongRun" then some .LongRun
  else if s = "OneShot" then some .OneShot
  else none

/-- Consume `null` or a JSON string, as serde does for `Option<String>`. -/
def readOptStr (s : List Char) : Option (Option String × List Char) :=
  match expectLit "null".data s with
  | some rest => some (none, rest)
  | none => (readJsonStr s).map (fun p => (some p.1, p.2))

/-- serde_json::from_str for a `VM` record (canonical form). -/
def decodeVM (s : String) : Option VM := do
  let r ← expectLit "\x7b\"name\":".data s.data
  let (name, r) ← readJsonStr r
  let r ← expectLit ",\"vm_type\":\x7b\"system_app\":".data r
  let (sa, r) ← readJsonStr r
  let sa ← decodeSystemApp sa
  let r ← expectLit ",\"run_type\":".data r
  let (rt, r) ← readJsonStr r
  let rt ← decodeRunType rt
  let r ← expectLit "\x7d,\"addresses\":\x7b\"ip\":".data r
  let (ip, r) ← readJsonStr r
  let r ← expectLit ",\"vsock\":".data r
  let (vs, r) ← readJsonStr r
  let r ← expectLit "\x7d,\"xdg_run\":".data r
  let (xdg, r) ← readOptStr r
  let r ← expectLit ",\"mime_type\":".data r
  let (mime, r) ← readOptStr r
  let r ← expectLit "\x7d".data r
  if r.isEmpty then some ⟨name, ⟨sa, rt⟩, ⟨ip, vs⟩, xdg, mime⟩ else none

/-! The seven handlers of src/src/main.rs, as store transformers. -/

/-- src/src/main.rs lines 85-90 `register_vm`: unconditionally `SET`s the
serialized record under its name and replies with the record as JSON
(status 200). No duplicate-name or address check exists in the source. -/
def register_vm (vm : VM) (st : Store) : Store × Reply :=
  (storeSet vm.name (encodeVM vm) st, ⟨encodeVM vm, 200⟩)

/-- src/src/main.rs lines 92-95 `run_vm`: prints a line and replies
200 "VM started."; it never touches the store. -/
def run_vm (_name : String) (st : Store) : Store × Reply :=
  (st, ⟨"VM started.", 200⟩)

/-- src/src/main.rs lines 97-100 `connect_vm`: prints a line and replies
200 "Connected to VM."; it never touches the store. -/
def connect_vm (_name : String) (st : Store) : Store × Reply :=
  (st, ⟨"Connected to VM.", 200⟩)

/-- src/src/main.rs lines 102-105 `stop_vm`: prints a line and replies
200 "VM stopped."; it never touches the store. -/
def stop_vm (_name : String) (st : Store) : Store × Reply :=
  (st, ⟨"VM stopped.", 200⟩)

/-- src/src/main.rs lines 107-111 `get_vm_status`: replies
200 "VM {name} is running." for every name (the source comments this as a
sample status); it never touches the store. -/
def get_vm_status (name : String) (st : Store) : Store × Reply :=
  (st, ⟨"VM " ++ name ++ " is running.", 200⟩)

/-- src/src/main.rs lines 113-118 `unregister_vm`: `DEL`s the key and
replies 200 "VM unregistered.". -/
def unregister_vm (name : String) (st : Store) : Store × Reply :=
  (storeDel name st, ⟨"VM unregistered.", 200⟩)

/-- The loop of src/src/main.rs lines 125-129: for each key, `GET` the
value and `serde_json::from_str(...).unwrap()` it. `none` models the
`unwrap` panic aborting the whole request. -/
def listLoop (st : Store) : List String → Option (List VM)
  | [] => some []
  | name :: rest =>
    match storeGet name st with
    | none => none
    | some d =>
      match decodeVM d with
      | none => none
      | some vm =>
        match listLoop st rest with
        | none => none
        | some vms => some (vm :: vms)

/-- src/src/main.rs lines 120-131 `list_vms`: `KEYS *`, then decode each
value; on success the reply is the JSON of the collected vector (status
200), and `none` models the handler panicking on a failed `unwrap`. -/
def list_vms (st : Store) : Option (List VM) :=
  listLoop st (storeKeys st)

/-- A fetch-then-decode of one key, the body of `list_vms`'s loop. -/
def fetchDecode (st : Store) (k : String) : Option VM :=
  (storeGet k st).bind decodeVM

/-- A sequence of `run_vm` calls, one per listed name, threading the
store through (any schedule of concurrent calls reduces to this because
`run_vm` reads and writes no shared state). -/
def runMany : List String → Store → Store × List Reply
  | [], st => (st, [])
  | n :: rest, st =>
    let (st1, r) := run_vm n st
    let (st2, rs) := runMany rest st1
    (st2, r :: rs)

/-- The test record of src/src/main.rs lines 149-161 with empty options. -/
def vmA : VM :=
  ⟨"vm1", ⟨.System, .LongRun⟩, ⟨"10.0.0.1", "vsock1"⟩, none, none⟩

/-- A second record with the same name as `vmA` but different contents. -/
def vmB : VM :=
  ⟨"vm1", ⟨.App, .OneShot⟩, ⟨"10.0.0.2", "vsock2"⟩, some "xdg", none⟩

example : decodeVM (encodeVM vmA) = some vmA := by decide
example : decodeVM (encodeVM vmB) = some vmB := by decide
example : decodeVM "garbage" = none := by decide

/-! Store lemmas. -/

/-- Filtering out a key other than `k` does not change the first binding
of `k`. -/
theorem find?_filter_other (k k' : String) (h : k ≠ k') (st : Store) :
    (st.filter (fun p => p.1 != k')).find? (fun p => p.1 == k)
      = st.find? (fun p => p.1 == k) := by
  induction st with
  | nil => rfl
  | cons p tl ih =>
    by_cases hp : p.1 = k'
    · have h1 : (p.1 != k') = false := by simp [hp]
      have h2 : (p.1 == k) = false := by
        rw [hp]
        exact beq_eq_false_iff_ne.mpr (Ne.symm h)
      simp [List.filter_cons, h1, List.find?_cons, h2, ih]
    · have h1 : (p.1 != k') = true := by simp [hp]
      by_cases hk : p.1 = k
      · have h2 : (p.1 == k) = true := by simp [hk]
        simp [List.filter_cons, h1, List.find?_cons, h2]
      · have h2 : (p.1 == k) = false := by simp [hk]
        simp [List.filter_cons, h1, List.find?_cons, h2, ih]

/-- Filtering out a key removes every binding of it. -/
theorem find?_filter_self (k : String) (st : Store) :
    (st.filter (fun p => p.1 != k)).find? (fun p => p.1 == k) = none := by
  induction st with
  | nil => rfl
  | cons p tl ih =>
    by_cases hp : p.1 = k
    · have h1 : (p.1 != k) = false := by simp [hp]
      simp [List.filter_cons, h1, ih]
    · have h1 : (p.1 != k) = true := by simp [hp]
      have h2 : (p.1 == k) = false := by simp [hp]
      simp [List.filter_cons, h1, List.find?_cons, h2, ih]

/-- Reading back the key just written returns the written value. -/
theorem storeGet_set_self (k v : String) (st : Store) :
    storeGet k (storeSet k v st) = some v := by
  simp [storeGet, storeSet, List.find?_cons]

/-- Reading back a deleted key returns nothing. -/
theorem storeGet_del_self (k : String) (st : Store) :
    storeGet k (storeDel k st) = none := by
  simp [storeGet, storeDel, find?_filter_self]

/-- Deleting one key does not change the value read at another key. -/
theorem storeGet_del_other (k k' : String) (h : k ≠ k') (st : Store) :
    storeGet k (storeDel k' st) = storeGet k st := by
  simp [storeGet, storeDel, find?_filter_other k k' h st]

/-- Writing one key does not change the value read at another key. -/
theorem storeGet_set_other (k k' v : String) (h : k ≠ k') (st : Store) :
    storeGet k (storeSet k' v st) = storeGet k st := by
  have h1 : (k' == k) = false := beq_eq_false_iff_ne.mpr (Ne.symm h)
  simp [storeGet, storeSet, List.find?_cons, h1, find?_filter_other k k' h st]

/-! Lemmas about the listing loop. -/

/-- One step of the loop: processing one more key aborts exactly when that
key's fetch-and-decode fails or the rest of the loop aborts. -/
theorem listLoop_step (st : Store) (n : String) (rest : List String) :
    listLoop st (n :: rest) = none
      ↔ (fetchDecode st n = none ∨ listLoop st rest = none) := by
  simp only [listLoop, fetchDecode]
  cases hg : storeGet n st with
  | none => simp
  | some d =>
    cases hd : decodeVM d with
    | none => simp [hd]
    | some vm =>
      cases hl : listLoop st rest with
      | none => simp [hd, hl]
      | some vms => simp [hd, hl]

/-- The loop aborts (models the `unwrap` panic) exactly when the fetch or
decode of some listed key fails. -/
theorem listLoop_eq_none_iff (st : Store) (names : List String) :
    listLoop st names = none ↔ ∃ k ∈ names, fetchDecode st k = none := by
  induction names with
  | nil => simp [listLoop]
  | cons n rest ih =>
    rw [listLoop_step, ih]
    constructor
    · rintro (h | ⟨k, hk, hkn⟩)
      · exact ⟨n, List.mem_cons_self n rest, h⟩
      · exact ⟨k, List.mem_cons_of_mem n hk, hkn⟩
    · rintro ⟨k, hk, hkn⟩
      rcases List.mem_cons.mp hk with rfl | hk'
      · exact Or.inl hkn
      · exact Or.inr ⟨k, hk', hkn⟩

/-- When the loop completes, it returns exactly the fetch-and-decode of
each listed key, in order. -/
theorem listLoop_eq_some (st : Store) (names : List String) (vms : List VM)
    (h : listLoop st names = some vms) :
    vms = names.filterMap (fetchDecode st) := by
  induction names generalizing vms with
  | nil =>
    simp [listLoop] at h
    simp [← h]
  | cons n rest ih =>
    simp only [listLoop] at h
    cases hg : storeGet n st with
    | none => simp [hg] at h
    | some d =>
      cases hd : decodeVM d with
      | none => simp [hg, hd] at h
      | some vm =>
        cases hl : listLoop st rest with
        | none => simp [hg, hd, hl] at h
        | some vms' =>
          simp [hg, hd, hl] at h
          have := ih vms' hl
          simp [List.filterMap_cons, fetchDecode, hg, hd, ← h, this]

/-- Every schedule of `run_vm` calls leaves the store unchanged and
returns 200 "VM started." to every caller. -/
theorem runMany_eq (names : List String) (st : Store) :
    runMany names st = (st, names.map (fun _ => ⟨"VM started.", 200⟩)) := by
  induction names with
  | nil => rfl
  | cons n rest ih => simp [runMany, run_vm, ih]

/-! Claim theorems. -/

/-- Claim C1, counterexample: with a record named "vm1" already stored,
registering another record with the same name returns 200 with the new
record (no `DuplicateName` or `AddressConflict` error) and overwrites the
stored record. -/
theorem register_vm_duplicate_overwrites :
    storeGet "vm1" (register_vm vmA []).1 = some (encodeVM vmA) ∧
    (register_vm vmB (register_vm vmA []).1).2 = ⟨encodeVM vmB, 200⟩ ∧
    storeGet "vm1" (register_vm vmB (register_vm vmA []).1).1
      = some (encodeVM vmB) ∧
    encodeVM vmB ≠ encodeVM vmA := by decide

/-- Claim C1, amended: `register_vm` always succeeds with status 200 and
the record echoed as body, stores the serialized record under its name
(overwriting any previous binding), and leaves every other key unchanged;
the stored record carries no version or state field. -/
theorem register_vm_always_succeeds (vm : VM) (st : Store) :
    (register_vm vm st).2 = ⟨encodeVM vm, 200⟩ ∧
    storeGet vm.name (register_vm vm st).1 = some (encodeVM vm) ∧
    ∀ k, k ≠ vm.name → storeGet k (register_vm vm st).1 = storeGet k st :=
  ⟨rfl, storeGet_set_self _ _ _, fun _ hk => storeGet_set_other _ _ _ hk _⟩

/-- Claim C1, witness for the amended theorem at `vmA` on the empty store
and the unrelated key "other". -/
theorem register_vm_always_succeeds_witness :
    (register_vm vmA []).2 = ⟨encodeVM vmA, 200⟩ ∧
    storeGet "vm1" (register_vm vmA []).1 = some (encodeVM vmA) ∧
    storeGet "other" (register_vm vmA []).1 = storeGet "other" [] := by
  obtain ⟨h1, h2, h3⟩ := register_vm_always_succeeds vmA []
  exact ⟨h1, h2, h3 "other" (by decide)⟩

/-- Claim C2: `get_vm_status` replies 200 with the fixed sample body
"VM name is running." for every name and never touches the store; in
particular, immediately after registering "vm1" and unregistering it
(so no record for "vm1" exists), Status("vm1") still replies 200, not
404 NotFound. -/
theorem get_vm_status_never_notfound :
    (∀ (name : String) (st : Store),
        get_vm_status name st = (st, ⟨"VM " ++ name ++ " is running.", 200⟩)) ∧
    storeGet "vm1" (unregister_vm "vm1" (register_vm vmA []).1).1 = none ∧
    (get_vm_status "vm1" (unregister_vm "vm1" (register_vm vmA []).1).1).2
      = ⟨"VM vm1 is running.", 200⟩ :=
  ⟨fun _ _ => rfl, by decide, by decide⟩

/-- Claim C3, counterexample: after registering "vm1" and issuing a
successful Run (after which the spec deems the VM Running), a second Run
replies 200 "VM started." again instead of failing with `AlreadyRunning`. -/
theorem run_vm_after_run_succeeds :
    (run_vm "vm1" (register_vm vmA []).1).2 = ⟨"VM started.", 200⟩ ∧
    (run_vm "vm1" (run_vm "vm1" (register_vm vmA []).1).1).2
      = ⟨"VM started.", 200⟩ := by decide

/-- Claim C3, amended: `run_vm` replies 200 "VM started." for every name
and every store, leaves the store unchanged, and a repeated Run succeeds
identically — the code tracks no Running state and has no `AlreadyRunning`
error. -/
theorem run_vm_always_succeeds (name : String) (st : Store) :
    (run_vm name st).2 = ⟨"VM started.", 200⟩ ∧
    (run_vm name (run_vm name st).1).2 = ⟨"VM started.", 200⟩ ∧
    (run_vm name st).1 = st :=
  ⟨rfl, rfl, rfl⟩

/-- Claim C4, counterexample: two illegal actions are both accepted.
Stop on a freshly registered record (state Registered per the spec, from
which `stop` is illegal) replies 200 "VM stopped." instead of failing;
and Unregister on a VM the spec deems Running (register then a successful
Run, and unregister is legal only from Registered or Stopped) replies
200 "VM unregistered." and deletes the record — so on that illegal
transition the stored record is not left byte-for-byte unchanged either. -/
theorem illegal_transitions_not_rejected :
    (stop_vm "vm1" (register_vm vmA []).1).2 = ⟨"VM stopped.", 200⟩ ∧
    storeGet "vm1" (run_vm "vm1" (register_vm vmA []).1).1
      = some (encodeVM vmA) ∧
    (unregister_vm "vm1" (run_vm "vm1" (register_vm vmA []).1).1).2
      = ⟨"VM unregistered.", 200⟩ ∧
    storeGet "vm1"
        (unregister_vm "vm1" (run_vm "vm1" (register_vm vmA []).1).1).1
      = none := by decide

/-- Claim C4, amended: no requested action is ever rejected, legal or not
from the record's (nonexistent in code) state: Run, Connect and Stop
always succeed with 200 and never write the store (for them the stored
record is indeed unchanged), while Unregister always succeeds with 200
and unconditionally deletes the record — so an illegal unregister both
succeeds and mutates the store, leaving only the other keys unchanged. -/
theorem lifecycle_actions_never_rejected (name : String) (st : Store) :
    stop_vm name st = (st, ⟨"VM stopped.", 200⟩) ∧
    run_vm name st = (st, ⟨"VM started.", 200⟩) ∧
    connect_vm name st = (st, ⟨"Connected to VM.", 200⟩) ∧
    (unregister_vm name st).2 = ⟨"VM unregistered.", 200⟩ ∧
    storeGet name (unregister_vm name st).1 = none ∧
    ∀ k, k ≠ name → storeGet k (unregister_vm name st).1 = storeGet k st :=
  ⟨rfl, rfl, rfl, rfl, storeGet_del_self _ _,
   fun _ hk => storeGet_del_other _ _ hk _⟩

/-- Claim C4, witness for the amended theorem at name "vm1" on the store
holding the registered `vmA`, with the unrelated key "other". -/
theorem lifecycle_actions_never_rejected_witness :
    stop_vm "vm1" (register_vm vmA []).1
      = ((register_vm vmA []).1, ⟨"VM stopped.", 200⟩) ∧
    run_vm "vm1" (register_vm vmA []).1
      = ((register_vm vmA []).1, ⟨"VM started.", 200⟩) ∧
    connect_vm "vm1" (register_vm vmA []).1
      = ((register_vm vmA []).1, ⟨"Connected to VM.", 200⟩) ∧
    (unregister_vm "vm1" (register_vm vmA []).1).2
      = ⟨"VM unregistered.", 200⟩ ∧
    storeGet "vm1" (unregister_vm "vm1" (register_vm vmA []).1).1 = none ∧
    storeGet "other" (unregister_vm "vm1" (register_vm vmA []).1).1
      = storeGet "other" (register_vm vmA []).1 := by
  obtain ⟨h1, h2, h3, h4, h5, h6⟩ :=
    lifecycle_actions_never_rejected "vm1" (register_vm vmA []).1
  exact ⟨h1, h2, h3, h4, h5, h6 "other" (by decide)⟩

/-- Claim C5: Connect is idempotent — for every name and store, both of
two successive `connect_vm` calls reply status 200, the second reply
equals the first, and neither call changes the store (hence no stored
record, so in particular no version, changes). -/
theorem connect_vm_idempotent (name : String) (st : Store) :
    (connect_vm name st).2.status = 200 ∧
    (connect_vm name (connect_vm name st).1).2.status = 200 ∧
    (connect_vm name (connect_vm name st).1).2 = (connect_vm name st).2 ∧
    (connect_vm name (connect_vm name st).1).1 = (connect_vm name st).1 ∧
    (connect_vm name st).1 = st :=
  ⟨rfl, rfl, rfl, rfl, rfl⟩

/-- Claim C6: after a successful Register of `vmA`, the record is stored,
yet Status("vm1") returns the fixed sample body "VM vm1 is running."
(with 200), which is not the stored record — the handler never reads the
store. -/
theorem status_after_register_ignores_record :
    storeGet "vm1" (register_vm vmA []).1 = some (encodeVM vmA) ∧
    (get_vm_status "vm1" (register_vm vmA []).1).2
      = ⟨"VM vm1 is running.", 200⟩ ∧
    "VM vm1 is running." ≠ encodeVM vmA := by decide

/-- Claim C7, counterexample: records carry no version and writes are
unconditional — a second Register of "vm1" (a conceptually stale write)
is applied, not rejected: both calls return 200 and the store ends with
exactly the second record under "vm1". -/
theorem stale_write_applied :
    (register_vm vmA []).2.status = 200 ∧
    (register_vm vmB (register_vm vmA []).1).2.status = 200 ∧
    storeGet vmA.name (register_vm vmB (register_vm vmA []).1).1
      = some (encodeVM vmB) ∧
    storeKeys (register_vm vmB (register_vm vmA []).1).1 = ["vm1"] ∧
    encodeVM vmB ≠ encodeVM vmA := by decide

/-- Claim C7, amended: the `VM` record has no version field and the store
write path performs no optimistic-concurrency check: for any two records
with the same name, registering the first and then the second always
succeeds (both 200) and unconditionally replaces the stored value with
the second record's serialization. -/
theorem register_vm_overwrite_unconditional (r1 r2 : VM) (st : Store)
    (h : r1.name = r2.name) :
    (register_vm r1 st).2.status = 200 ∧
    (register_vm r2 (register_vm r1 st).1).2.status = 200 ∧
    storeGet r1.name (register_vm r2 (register_vm r1 st).1).1
      = some (encodeVM r2) := by
  refine ⟨rfl, rfl, ?_⟩
  rw [h]
  exact storeGet_set_self _ _ _

/-- Claim C7, witness for the amended theorem at `vmA`, `vmB` (same name
"vm1") on the empty store. -/
theorem register_vm_overwrite_unconditional_witness :
    (register_vm vmA []).2.status = 200 ∧
    (register_vm vmB (register_vm vmA []).1).2.status = 200 ∧
    storeGet vmA.name (register_vm vmB (register_vm vmA []).1).1
      = some (encodeVM vmB) :=
  register_vm_overwrite_unconditional vmA vmB [] rfl

/-- Claim C8, counterexample: three Run calls on the registered name
"vm1" (any concurrent schedule reduces to this sequence because `run_vm`
reads and writes no shared state) all reply 200 "VM started." — not
exactly one success with the others failing — and no state change is
persisted at all. -/
theorem concurrent_runs_all_succeed :
    (runMany ["vm1", "vm1", "vm1"] (register_vm vmA []).1).2
      = [⟨"VM started.", 200⟩, ⟨"VM started.", 200⟩, ⟨"VM started.", 200⟩] ∧
    (runMany ["vm1", "vm1", "vm1"] (register_vm vmA []).1).1
      = (register_vm vmA []).1 := by decide

/-- Claim C8, amended: any number of Run calls, on any names and in any
order, all reply 200 "VM started." and leave the persisted store exactly
as it was; the code performs no driver call and no per-name
serialization. -/
theorem concurrent_run_calls_uniform (names : List String) (st : Store) :
    (runMany names st).1 = st ∧
    (runMany names st).2 = names.map (fun _ => ⟨"VM started.", 200⟩) := by
  rw [runMany_eq]
  exact ⟨rfl, rfl⟩

/-- Claim C9, counterexample: with one undecodable value and one good
record in the store, `list_vms` aborts entirely (the `unwrap` panic),
returning no records, even though the good record decodes fine. -/
theorem list_vms_decode_failure_fatal :
    list_vms [("bad", "garbage"), ("vm1", encodeVM vmA)] = none ∧
    fetchDecode [("bad", "garbage"), ("vm1", encodeVM vmA)] "vm1"
      = some vmA ∧
    decodeVM "garbage" = none := by decide

/-- Claim C9, amended: `list_vms` fails (panics) exactly when the
fetch-and-decode of some stored key fails — a single decode failure is
fatal to the whole listing — and when it succeeds it returns the decoded
records of all keys in order. -/
theorem list_vms_failure_characterization (st : Store) :
    (list_vms st = none ↔ ∃ k ∈ storeKeys st, fetchDecode st k = none) ∧
    ∀ vms, list_vms st = some vms
      → vms = (storeKeys st).filterMap (fetchDecode st) :=
  ⟨listLoop_eq_none_iff st (storeKeys st),
   fun vms h => listLoop_eq_some st (storeKeys st) vms h⟩

/-- Claim C9, witness for the amended theorem on the one-record store
holding `vmA`. -/
theorem list_vms_failure_characterization_witness :
    [vmA] = (storeKeys [("vm1", encodeVM vmA)]).filterMap
      (fetchDecode [("vm1", encodeVM vmA)]) :=
  (list_vms_failure_characterization [("vm1", encodeVM vmA)]).2 [vmA]
    (by decide)

/-- Claim C10: `run_vm`, `connect_vm` and `stop_vm` never touch the
store — for every name, every prior store contents and every key, the
value stored at that key after the call is exactly what it was before. -/
theorem run_connect_stop_frame (name : String) (st : Store) (k : String) :
    storeGet k (run_vm name st).1 = storeGet k st ∧
    storeGet k (connect_vm name st).1 = storeGet k st ∧
    storeGet k (stop_vm name st).1 = storeGet k st :=
  ⟨rfl, rfl, rfl⟩
